import Mathlib

/-!
Shallow embedding of the AI Query Generator request-processing pipeline
(src/core/query_processor.py, src/core/database_manager.py,
src/core/ai_service.py, src/core/triage_service.py, src/core/models.py)
together with proofs about the embedded operations.

Python strings are modelled as `List Char` (or Lean `String` where only
concatenation matters), machine integers as `Int`/`Nat`, exceptions as an
explicit `PyExc` sum returned through `Except`, and the asyncio-serialised
shared schema state as explicit state passing.
-/

namespace AiQueryGen

/-- Python exceptions relevant to the pipeline.  All constructors model
classes deriving from `Exception`; the domain errors of
src/core/exceptions.py are sibling subclasses of `AIQueryGeneratorError`,
and the presto driver errors are unrelated classes.  `otherError` stands
for any exception of none of the named classes. -/
inductive PyExc where
  | classificationError (msg : String)
  | queryGenerationError (msg : String)
  | schemaLoadError (msg : String)
  | databaseConnectionError (msg : String)
  | queryExecutionError (msg : String)
  | prestoUserError (msg : String)
  | prestoQueryError (msg : String)
  | attributeError (msg : String)
  | otherError (msg : String)
deriving DecidableEq, Repr

/-- Python `str(exc)`: the message the exception carries. -/
def py_str : PyExc → String
  | .classificationError m => m
  | .queryGenerationError m => m
  | .schemaLoadError m => m
  | .databaseConnectionError m => m
  | .queryExecutionError m => m
  | .prestoUserError m => m
  | .prestoQueryError m => m
  | .attributeError m => m
  | .otherError m => m

/-- Membership test of an `except ClassificationError` clause. -/
def is_classification_error : PyExc → Bool
  | .classificationError _ => true
  | _ => false

/-- Membership test of an `except QueryGenerationError` clause. -/
def is_query_generation_error : PyExc → Bool
  | .queryGenerationError _ => true
  | _ => false

/-- Membership test of an `except SchemaLoadError` clause. -/
def is_schema_load_error : PyExc → Bool
  | .schemaLoadError _ => true
  | _ => false

/-- Membership test of an `except DatabaseConnectionError` clause. -/
def is_database_connection_error : PyExc → Bool
  | .databaseConnectionError _ => true
  | _ => false

/-- Membership test of an `except QueryExecutionError` clause. -/
def is_query_execution_error : PyExc → Bool
  | .queryExecutionError _ => true
  | _ => false

/-- Membership test of an `except presto_exceptions.PrestoUserError` clause. -/
def is_presto_user_error : PyExc → Bool
  | .prestoUserError _ => true
  | _ => false

/-- Membership test of an `except presto_exceptions.PrestoQueryError` clause. -/
def is_presto_query_error : PyExc → Bool
  | .prestoQueryError _ => true
  | _ => false

/-- Membership test of an `except AttributeError` clause. -/
def is_attribute_error : PyExc → Bool
  | .attributeError _ => true
  | _ => false

/-- Python truthiness of an `Optional[str]`: `None` and the empty string
are falsy, every other string is truthy. -/
def truthy_str_opt : Option String → Bool
  | none => false
  | some s => !(s == "")

/-- src/core/models.py lines 10-30, `SchemaColumn`: a column or calculated
metric of the schema. -/
structure SchemaColumn where
  name : String
  type : String
  field_name : Option String
  description : Option String
  formula : Option String
deriving DecidableEq, Repr

/-- src/core/models.py line 26, `label = self.field_name or self.name`
(Python `or`, so an empty `field_name` falls back to `name`). -/
def SchemaColumn.label (c : SchemaColumn) : String :=
  match c.field_name with
  | some f => if f == "" then c.name else f
  | none => c.name

/-- src/core/models.py line 30, `is_calculated = bool(self.formula)`. -/
def SchemaColumn.is_calculated (c : SchemaColumn) : Bool :=
  truthy_str_opt c.formula

/-- src/core/models.py lines 33-37, `SchemaTable`. -/
structure SchemaTable where
  name : String
  columns : List SchemaColumn
deriving DecidableEq, Repr

/-- src/core/models.py lines 53-56, `SchemaCatalog`: the `tables` dict is
modelled as an insertion-ordered association list. -/
structure SchemaCatalog where
  tables : List (String × SchemaTable)
deriving DecidableEq, Repr

/-- src/core/ai_service.py line 151, the optional description suffix of a
rendered column. -/
def description_part (c : SchemaColumn) : String :=
  if truthy_str_opt c.description then " - " ++ c.description.getD "" else ""

/-- src/core/ai_service.py lines 150-154, `AIService._format_column`. -/
def format_column (c : SchemaColumn) : String :=
  if c.is_calculated && truthy_str_opt c.formula then
    c.label ++ " := " ++ c.formula.getD "" ++ description_part c
  else
    c.label ++ " -> " ++ c.name ++ " (" ++ c.type ++ ")" ++ description_part c

/-- Rendering shape the spec prescribes for calculated columns:
`label := formula[ - description]`. -/
def calculated_metric_form (c : SchemaColumn) : String :=
  c.label ++ " := " ++ c.formula.getD "" ++ description_part c

/-- Rendering shape the spec prescribes for base columns:
`label -> physical_name (type)[ - description]`. -/
def base_column_form (c : SchemaColumn) : String :=
  c.label ++ " -> " ++ c.name ++ " (" ++ c.type ++ ")" ++ description_part c

/-- src/core/ai_service.py lines 128-146: the loop body of
`AIService._render_schema` for one table.  The `for column in
table.columns` loop that appends each formatted entry to either
`base_columns` or `metrics` is the fold; the conditional header lines and
the trailing blank line follow the source order. -/
def render_table_lines (table_name : String) (table : SchemaTable) : List String :=
  let parts := table.columns.foldl
    (fun (acc : List String × List String) c =>
      if c.is_calculated then (acc.1, acc.2 ++ [format_column c])
      else (acc.1 ++ [format_column c], acc.2))
    ([], [])
  ["Table: " ++ table_name]
    ++ (if parts.1.isEmpty then [] else "  Base Columns:" :: parts.1.map (fun s => "    - " ++ s))
    ++ (if parts.2.isEmpty then [] else "  Calculated Metrics:" :: parts.2.map (fun s => "    - " ++ s))
    ++ [""]

/-- src/core/ai_service.py lines 126-148, `AIService._render_schema` as the
list of lines before the final join and strip. -/
def render_schema_lines (schema : SchemaCatalog) : List String :=
  (schema.tables.map (fun p => render_table_lines p.1 p.2)).flatten

/-- Python whitespace characters stripped by `str.strip()` (ASCII range). -/
def is_py_space (c : Char) : Bool :=
  (c == ' ') || (c == '\t') || (c == '\n') || (c == '\r') || (c == '\x0b') || (c == '\x0c')

/-- Python `str.strip()`: drop leading and trailing whitespace. -/
def py_strip (cs : List Char) : List Char :=
  ((cs.dropWhile is_py_space).reverse.dropWhile is_py_space).reverse

/-- The backquote character, written via its code point. -/
def bq : Char := Char.ofNat 96

/-- src/core/ai_service.py line 157, the substitution
`re.sub(r"```(sql)?", "", sql_query)`: scan left to right; at a run of
three backquotes greedily also consume a following `sql`, drop the match
and continue after it; otherwise keep the character. -/
def remove_code_fences : List Char → List Char
  | [] => []
  | c1 :: rest1 =>
    if [bq, bq, bq, 's', 'q', 'l'].isPrefixOf (c1 :: rest1) then
      remove_code_fences (rest1.drop 5)
    else if [bq, bq, bq].isPrefixOf (c1 :: rest1) then
      remove_code_fences (rest1.drop 2)
    else c1 :: remove_code_fences rest1
termination_by cs => cs.length
decreasing_by
  all_goals simp [List.length_cons, List.length_drop]
  all_goals omega

/-- Whether a run of three consecutive backquotes (a Markdown code-fence
marker, the thing `re.sub` can match) occurs anywhere in the text. -/
def has_fence : List Char → Bool
  | [] => false
  | c :: rest => ([bq, bq, bq].isPrefixOf (c :: rest)) || has_fence rest

/-- src/core/ai_service.py lines 156-161, `AIService._clean_sql_query`:
remove fence markers, strip whitespace, drop one trailing `;`. -/
def clean_sql_query (cs : List Char) : List Char :=
  let stripped := py_strip (remove_code_fences cs)
  if stripped.getLast? = some ';' then stripped.dropLast else stripped

/-- src/core/triage_service.py lines 11-22, `GREETING_KEYWORDS`. -/
def GREETING_KEYWORDS : List String :=
  ["hi", "hello", "hey", "good morning", "good afternoon", "good evening",
   "greetings", "yo", "hola", "namaste"]

/-- Python `needle in hay` on strings: substring containment. -/
def contains_substring (hay needle : List Char) : Bool :=
  hay.tails.any (fun t => needle.isPrefixOf t)

/-- src/core/triage_service.py lines 39-40: the cheap greeting shortcut,
`any(keyword in lower_query for keyword in GREETING_KEYWORDS)` over the
lower-cased question. -/
def greeting_shortcut (user_query : String) : Bool :=
  GREETING_KEYWORDS.any (fun k => contains_substring (user_query.data.map Char.toLower) k.data)

/-- The fixed label set of src/core/triage_service.py line 70. -/
def VALID_LABELS : List String :=
  ["DATA_QUESTION", "GENERAL_QUESTION", "GREETING", "OUT_OF_SCOPE"]

/-- src/core/triage_service.py line 69, the reply normalisation
`(response.choices[0].message.content or "").strip().upper()` (ASCII
uppercasing). -/
def normalize_reply (reply : Option String) : String :=
  String.mk ((py_strip (reply.getD "").data).map Char.toUpper)

/-- src/core/triage_service.py lines 38-74, `TriageService.classify_query`
on the path where the remote call succeeds with reply `reply` (the message
content, `none` modelling a null content).  The second component records
whether the remote classification call was issued: the greeting shortcut
returns before the call. -/
def classify_query (user_query : String) (reply : Option String) : String × Bool :=
  if greeting_shortcut user_query then ("GREETING", false)
  else
    let label := normalize_reply reply
    if VALID_LABELS.contains label then (label, true)
    else ("DATA_QUESTION", true)

/-- src/core/models.py lines 96-101, the `row_count` pydantic validator:
a falsy (zero) value, supplied or defaulted, is replaced by `len(rows)`;
any non-zero value is kept. -/
def query_result_row_count (supplied : Int) (rows : List α) : Int :=
  if supplied ≠ 0 then supplied else (rows.length : Int)

/-- src/core/models.py lines 85-101, `QueryResult`.  Row dictionaries are
kept abstract in the row type `α`. -/
structure QueryResult (α : Type) where
  query_id : Nat
  sql : String
  rows : List α
  columns : List String
  row_count : Int
  execution_ms : Option Int
  cached : Bool
deriving DecidableEq, Repr

/-- Construction of a `QueryResult` through pydantic validation: the
supplied `row_count` (0 when the field was not given) passes through the
validator. -/
def mk_query_result (query_id : Nat) (sql : String) (rows : List α)
    (columns : List String) (row_count : Int) (execution_ms : Option Int)
    (cached : Bool) : QueryResult α :=
  ⟨query_id, sql, rows, columns, query_result_row_count row_count rows,
   execution_ms, cached⟩

/-- src/core/query_processor.py lines 120-141,
`QueryProcessor._format_success_response`.  `m` is
`config.max_results_display`, `repr_row` models Python `str(row)`. -/
def format_success_response (m : Nat) (repr_row : α → String) (sql : String)
    (result : QueryResult α) : String :=
  if result.rows.isEmpty then
    "Generated SQL Query:\n\n" ++ sql ++ "\n\nNo results were returned."
  else
    let preview_rows := result.rows.take m
    let header : List String :=
      ["Generated SQL Query:", "", sql, "",
       "Results (" ++ toString result.row_count ++ " row"
         ++ (if result.row_count ≠ 1 then "s" else "") ++ "):", ""]
    let numbered := preview_rows.enum.map
      (fun p => toString (p.1 + 1) ++ ". " ++ repr_row p.2)
    let remaining : Int := result.row_count - (preview_rows.length : Int)
    let note : List String :=
      if 0 < remaining then ["", "... and " ++ toString remaining ++ " more row(s)."] else []
    String.intercalate "\n" (header ++ numbered ++ note)

/-- Environment of one `DatabaseManager._execute_sync` call: what the
presto driver does when asked.  `connect_error` is the exception message
when `prestodb.dbapi.connect` raises; `exec_raises` is the exception
raised by `cursor.execute`, if any; `description` is `cursor.description`
(`none` for zero-column responses); `fetched_rows` is `cursor.fetchall()`
with cell values kept as opaque strings. -/
structure PrestoEnv where
  connect_error : Option String
  exec_raises : Option PyExc
  description : Option (List String)
  fetched_rows : List (List String)
  duration_ms : Int
deriving DecidableEq, Repr

/-- src/core/database_manager.py lines 108-124,
`DatabaseManager._ensure_connection`: reuse a live connection, otherwise
connect and wrap any failure in `DatabaseConnectionError`. -/
def ensure_connection (env : PrestoEnv) (connected : Bool) : Except PyExc Unit :=
  if connected then Except.ok ()
  else
    match env.connect_error with
    | none => Except.ok ()
    | some msg => Except.error (PyExc.databaseConnectionError msg)

/-- A result row of src/core/database_manager.py line 88,
`dict(zip(columns, row))`, modelled as the association list produced by
`zip` (truncated at the shorter sequence, like Python `zip`). -/
abbrev PyRow : Type := List (String × String)

/-- src/core/database_manager.py lines 71-97: the `try` body of
`DatabaseManager._execute_sync`. -/
def execute_sync_body (env : PrestoEnv) (connected : Bool) (query_id : Nat)
    (sql : String) : Except PyExc (QueryResult PyRow) :=
  match ensure_connection env connected with
  | Except.error e => Except.error e
  | Except.ok _ =>
    match env.exec_raises with
    | some e => Except.error e
    | none =>
      match env.description with
      | none =>
        Except.ok (mk_query_result query_id sql [] [] 0 (some env.duration_ms) false)
      | some columns =>
        Except.ok (mk_query_result query_id sql
          (env.fetched_rows.map (fun row => (columns.zip row : PyRow)))
          columns ((env.fetched_rows.map (fun row => columns.zip row)).length : Int)
          (some env.duration_ms) false)

/-- src/core/database_manager.py lines 98-106: the `except` chain of
`_execute_sync`.  `PrestoUserError`, `PrestoQueryError` and the final
blanket `except Exception` each re-raise as `QueryExecutionError`; the
blanket clause also captures the `DatabaseConnectionError` coming out of
`_ensure_connection`. -/
def wrap_execute_error (e : PyExc) : PyExc :=
  if is_presto_user_error e then PyExc.queryExecutionError (py_str e)
  else if is_presto_query_error e then PyExc.queryExecutionError (py_str e)
  else PyExc.queryExecutionError (py_str e)

/-- src/core/database_manager.py lines 62-106, `DatabaseManager._execute_sync`. -/
def execute_sync (env : PrestoEnv) (connected : Bool) (query_id : Nat)
    (sql : String) : Except PyExc (QueryResult PyRow) :=
  match execute_sync_body env connected query_id sql with
  | Except.ok r => Except.ok r
  | Except.error e => Except.error (wrap_execute_error e)

/-- src/core/database_manager.py lines 42-60, `DatabaseManager.execute`:
when execution is disabled by configuration return the empty preview
result, otherwise run `_execute_sync` (off-thread in the source). -/
def database_execute (execute_queries : Bool) (env : PrestoEnv)
    (connected : Bool) (query_id : Nat) (sql : String) :
    Except PyExc (QueryResult PyRow) :=
  if !execute_queries then
    Except.ok (mk_query_result query_id sql [] [] 0 none false)
  else execute_sync env connected query_id sql

/-- The schema-related state of a `DatabaseManager`: the cached catalog,
the `asyncio.Event` flag `_schema_loaded`, and a ghost counter of how many
times `_load_schema_from_disk` has run. -/
structure SchemaState where
  loaded_schema : Option SchemaCatalog
  schema_loaded : Bool
  load_count : Nat
deriving DecidableEq, Repr

/-- src/core/database_manager.py lines 30-40: the fresh manager state. -/
def initial_schema_state : SchemaState := ⟨none, false, 0⟩

/-- src/core/database_manager.py lines 142-150, `DatabaseManager.get_schema`.
The `asyncio.Lock` serialises the critical sections of concurrent callers,
so one call is one step on the shared state.  `loader` is the outcome of
`_load_schema_from_disk` (deterministic for a fixed schema file): on
failure the `SchemaLoadError` propagates with `_loaded_schema` still unset
and the event not set. -/
def get_schema_step (loader : Except String SchemaCatalog) (st : SchemaState) :
    Except PyExc SchemaCatalog × SchemaState :=
  match st.loaded_schema with
  | some schema => (Except.ok schema, st)
  | none =>
    match loader with
    | Except.error msg =>
      (Except.error (PyExc.schemaLoadError msg),
       { st with load_count := st.load_count + 1 })
    | Except.ok schema =>
      (Except.ok schema, ⟨some schema, true, st.load_count + 1⟩)

/-- N concurrent `get_schema` callers queueing on the load lock: the lock
serialises them, so the race is the sequential composition of N steps.
Returns the outcome of every caller and the final state. -/
def run_get_schema (loader : Except String SchemaCatalog) :
    Nat → SchemaState → List (Except PyExc SchemaCatalog) × SchemaState
  | 0, st => ([], st)
  | n + 1, st =>
    let first := get_schema_step loader st
    let rest := run_get_schema loader n first.2
    (first.1 :: rest.1, rest.2)

/-- Outcome of a `wait_for_schema` call: `blocked` models
`await self._schema_loaded.wait()` never returning because the event was
never set. -/
inductive WaitOutcome where
  | blocked
  | raised (e : PyExc)
  | returned (schema : SchemaCatalog)
deriving DecidableEq, Repr

/-- src/core/database_manager.py lines 152-156,
`DatabaseManager.wait_for_schema`: block until the event is set, then
raise `SchemaLoadError` if the catalog is absent, else return it. -/
def wait_for_schema (st : SchemaState) : WaitOutcome :=
  if st.schema_loaded then
    match st.loaded_schema with
    | none => WaitOutcome.raised (PyExc.schemaLoadError "Schema not loaded after waiting.")
    | some c => WaitOutcome.returned c
  else WaitOutcome.blocked

/-- Manager states reachable from the fresh state by `get_schema` calls
(the only writers of the schema state). -/
inductive SchemaReachable : SchemaState → Prop where
  | init : SchemaReachable initial_schema_state
  | step (loader : Except String SchemaCatalog) (st : SchemaState) :
      SchemaReachable st → SchemaReachable (get_schema_step loader st).2

/-- Behaviour of the four fallible pipeline stages during one
`QueryProcessor.process` call: what each awaited call returns or raises.
`α` is the row type of execution results. -/
structure StageBehavior (α : Type) where
  classify : Except PyExc String
  get_schema : Except PyExc SchemaCatalog
  generate_sql : Except PyExc String
  execute : Except PyExc (QueryResult α)
  answer_general : Except PyExc String

/-- src/core/query_processor.py line 45, classification fallback. -/
def classification_fallback : String :=
  "I could not determine how to handle that question. Please try rephrasing."

/-- src/core/query_processor.py lines 48-51, out-of-scope response. -/
def out_of_scope_response : String :=
  "I\x27m sorry, but that question is outside my current scope. I can help with video analytics data questions or information about the system."

/-- src/core/query_processor.py line 67, conversational fallback. -/
def general_fallback : String :=
  "I ran into an issue while answering that. Please try again shortly."

/-- src/core/query_processor.py lines 76-79, typed schema-load fallback. -/
def schema_load_fallback : String :=
  "I couldn\x27t load the schema information required to generate SQL. Please verify the schema configuration and try again."

/-- src/core/query_processor.py lines 82-85, generic schema-load fallback. -/
def schema_unexpected_fallback : String :=
  "Something went wrong while loading the schema definition. Please try again or contact support."

/-- src/core/query_processor.py lines 91-94, generation fallback. -/
def generation_fallback : String :=
  "I wasn\x27t able to generate a valid SQL query for that question. Please revise the question or provide more detail."

/-- src/core/query_processor.py lines 104-107, typed execution fallback. -/
def execution_fallback (sql : String) : String :=
  "Generated SQL Query:\n\n" ++ sql ++ "\n\nThe query failed to execute. Please review the SQL and try again."

/-- src/core/query_processor.py line 110, connection fallback. -/
def connection_fallback : String :=
  "Unable to connect to the database right now. Please try again later."

/-- src/core/query_processor.py lines 113-116, generic execution fallback. -/
def execution_unexpected_fallback (sql : String) : String :=
  "Generated SQL Query:\n\n" ++ sql ++ "\n\nAn unexpected error occurred while executing the query."

/-- src/core/query_processor.py lines 62-67,
`QueryProcessor._handle_general_question`: only `QueryGenerationError` is
caught. -/
def handle_general_question (b : StageBehavior α) : Except PyExc String :=
  match b.answer_general with
  | Except.ok text => Except.ok text
  | Except.error e =>
    if is_query_generation_error e then Except.ok general_fallback
    else Except.error e

/-- src/core/query_processor.py lines 69-118,
`QueryProcessor._handle_data_question`.  The `except` clauses are checked
in source order: at the schema stage `AttributeError` (re-raised as
`QueryGenerationError`), then `SchemaLoadError`, then `Exception`; at the
generation stage only `QueryGenerationError`; at the execution stage
`QueryExecutionError`, then `DatabaseConnectionError`, then `Exception`. -/
def handle_data_question (m : Nat) (repr_row : α → String) (b : StageBehavior α) :
    Except PyExc String :=
  match b.get_schema with
  | Except.error e =>
    if is_attribute_error e then
      Except.error (PyExc.queryGenerationError "Database manager does not expose schema retrieval.")
    else if is_schema_load_error e then Except.ok schema_load_fallback
    else Except.ok schema_unexpected_fallback
  | Except.ok _schema =>
    match b.generate_sql with
    | Except.error e =>
      if is_query_generation_error e then Except.ok generation_fallback
      else Except.error e
    | Except.ok sql =>
      match b.execute with
      | Except.error e =>
        if is_query_execution_error e then Except.ok (execution_fallback sql)
        else if is_database_connection_error e then Except.ok connection_fallback
        else Except.ok (execution_unexpected_fallback sql)
      | Except.ok result =>
        Except.ok (format_success_response m repr_row sql result)

/-- src/core/query_processor.py lines 39-60, `QueryProcessor.process`:
only `ClassificationError` is caught around classification; unrecognized
categories fall back to the data pipeline. -/
def process (m : Nat) (repr_row : α → String) (b : StageBehavior α) :
    Except PyExc String :=
  match b.classify with
  | Except.error e =>
    if is_classification_error e then Except.ok classification_fallback
    else Except.error e
  | Except.ok category =>
    if category = "OUT_OF_SCOPE" then Except.ok out_of_scope_response
    else if category = "GREETING" ∨ category = "GENERAL_QUESTION" then
      handle_general_question b
    else if category = "DATA_QUESTION" then handle_data_question m repr_row b
    else handle_data_question m repr_row b

/-- The classification stage raises nothing but its typed
`ClassificationError`. -/
def raises_only_classification (b : StageBehavior α) : Prop :=
  ∀ e, b.classify = Except.error e → is_classification_error e = true

/-- The SQL-generation stage raises nothing but its typed
`QueryGenerationError`. -/
def raises_only_generation (b : StageBehavior α) : Prop :=
  ∀ e, b.generate_sql = Except.error e → is_query_generation_error e = true

/-- The conversational-answer stage raises nothing but its typed
`QueryGenerationError`. -/
def raises_only_answer (b : StageBehavior α) : Prop :=
  ∀ e, b.answer_general = Except.error e → is_query_generation_error e = true

/-- The schema stage does not raise `AttributeError` (whose handler
re-raises instead of returning a fallback). -/
def schema_no_attribute_error (b : StageBehavior α) : Prop :=
  ∀ e, b.get_schema = Except.error e → is_attribute_error e = false

/-- A small concrete catalog used by concrete instantiations. -/
def sample_catalog : SchemaCatalog :=
  ⟨[("sessions", ⟨"sessions",
      [⟨"user_id", "bigint", none, none, none⟩,
       ⟨"active_users", "bigint", some "Active Users", none, some "count(distinct user_id)"⟩]⟩)]⟩

/-- Splitting a text at space characters, for stating whole-word facts
about the greeting shortcut. -/
def words_of : List Char → List (List Char)
  | [] => [[]]
  | c :: rest =>
    let ws := words_of rest
    if c = ' ' then [] :: ws
    else
      match ws with
      | [] => [[c]]
      | w :: tail => (c :: w) :: tail

/-! ## Theorems -/

/-- The partition loop of `_render_schema` appends each formatted column
to the base list or the metrics list according to `is_calculated`,
preserving column order. -/
theorem render_fold_partitions (cols : List SchemaColumn) (b m : List String) :
    cols.foldl
      (fun (acc : List String × List String) c =>
        if c.is_calculated then (acc.1, acc.2 ++ [format_column c])
        else (acc.1 ++ [format_column c], acc.2))
      (b, m)
    = (b ++ (cols.filter (fun c => !c.is_calculated)).map format_column,
       m ++ (cols.filter (fun c => c.is_calculated)).map format_column) := by
  induction cols generalizing b m with
  | nil => simp
  | cons c cs ih =>
    by_cases h : c.is_calculated
    · simp [List.foldl_cons, h, ih]
    · simp [List.foldl_cons, h, ih]

/-- C5: in the rendered schema prompt, every column with a non-empty
formula is rendered in the calculated-metric form `label := formula`
(with the optional description suffix) and every column with an empty or
absent formula is rendered in the base-column form
`label -> name (type)`; within each rendered table block the two groups
are exactly the calculated and non-calculated columns in order. -/
theorem format_column_renders_by_formula_presence :
    (∀ c : SchemaColumn, (∃ f, c.formula = some f ∧ f ≠ "") →
        format_column c = calculated_metric_form c)
    ∧ (∀ c : SchemaColumn, (c.formula = none ∨ c.formula = some "") →
        format_column c = base_column_form c)
    ∧ (∀ (table_name : String) (table : SchemaTable),
        render_table_lines table_name table =
          ["Table: " ++ table_name]
          ++ (if ((table.columns.filter (fun c => !c.is_calculated)).map format_column).isEmpty
              then []
              else "  Base Columns:" ::
                (((table.columns.filter (fun c => !c.is_calculated)).map format_column).map
                  (fun s => "    - " ++ s)))
          ++ (if ((table.columns.filter (fun c => c.is_calculated)).map format_column).isEmpty
              then []
              else "  Calculated Metrics:" ::
                (((table.columns.filter (fun c => c.is_calculated)).map format_column).map
                  (fun s => "    - " ++ s)))
          ++ [""]) := by
  refine ⟨?_, ?_, ?_⟩
  · rintro c ⟨f, hf, hne⟩
    have : truthy_str_opt c.formula = true := by
      simp [truthy_str_opt, hf]
      exact hne
    simp [format_column, SchemaColumn.is_calculated, this, calculated_metric_form]
  · rintro c (hf | hf) <;>
      simp [format_column, SchemaColumn.is_calculated, truthy_str_opt, hf, base_column_form]
  · intro table_name table
    simp only [render_table_lines, render_fold_partitions table.columns [] [],
      List.nil_append]

/-- Witness for C5 at a concrete calculated column and a concrete base
column. -/
theorem format_column_renders_by_formula_presence_witness :
    format_column ⟨"active_users", "bigint", some "Active Users", none,
        some "count(distinct user_id)"⟩
      = calculated_metric_form ⟨"active_users", "bigint", some "Active Users", none,
        some "count(distinct user_id)"⟩
    ∧ format_column ⟨"user_id", "bigint", none, none, none⟩
      = base_column_form ⟨"user_id", "bigint", none, none, none⟩ :=
  ⟨format_column_renders_by_formula_presence.1 _ ⟨_, rfl, by decide⟩,
   format_column_renders_by_formula_presence.2.1 _ (Or.inl rfl)⟩

/-- C7: on the remote-reply path, `classify_query` trims and uppercases
the reply; a normalized reply outside the fixed label set (including the
empty reply) yields `DATA_QUESTION` instead of an error, a recognized one
is returned as-is, and the returned label is always in the label set. -/
theorem classify_reply_normalization_defaults_to_data_question
    (q : String) (reply : Option String) (h : greeting_shortcut q = false) :
    (VALID_LABELS.contains (normalize_reply reply) = false →
        (classify_query q reply).1 = "DATA_QUESTION")
    ∧ (VALID_LABELS.contains (normalize_reply reply) = true →
        (classify_query q reply).1 = normalize_reply reply)
    ∧ VALID_LABELS.contains (classify_query q reply).1 = true
    ∧ (normalize_reply reply = "" → (classify_query q reply).1 = "DATA_QUESTION") := by
  by_cases hm : normalize_reply reply ∈ VALID_LABELS
  · have hc : VALID_LABELS.contains (normalize_reply reply) = true := by simpa using hm
    refine ⟨fun hfalse => by rw [hc] at hfalse; exact absurd hfalse (by simp),
      fun _ => ?_, ?_, fun hempty => ?_⟩
    · simp [classify_query, h, hm]
    · simp [classify_query, h, hm]
    · rw [hempty] at hm
      exact absurd hm (by decide)
  · have hc : VALID_LABELS.contains (normalize_reply reply) = false := by simpa using hm
    refine ⟨fun _ => ?_, fun htrue => by rw [hc] at htrue; exact absurd htrue (by simp),
      ?_, fun _ => ?_⟩
    · simp [classify_query, h, hm]
    · simp [classify_query, h, hm]
      decide
    · simp [classify_query, h, hm]

/-- Witness for C7: an unrecognized reply on a non-greeting question
falls back to the data label. -/
theorem classify_reply_normalization_defaults_to_data_question_witness :
    (classify_query "count of cameras" (some "banana")).1 = "DATA_QUESTION" :=
  (classify_reply_normalization_defaults_to_data_question
    "count of cameras" (some "banana") (by decide)).1 (by decide)

/-- C10: the greeting shortcut tests raw substring containment, so the
question `which cameras are offline` — none of whose words is a greeting
keyword — is classified `GREETING` without the remote classifier being
called (the keyword `hi` occurs inside `which`). -/
theorem greeting_shortcut_matches_substring_inside_word :
    (∀ reply : Option String,
        classify_query "which cameras are offline" reply = ("GREETING", false))
    ∧ GREETING_KEYWORDS.contains "which cameras are offline" = false
    ∧ ((words_of ("which cameras are offline".data.map Char.toLower)).all
        (fun w => !(GREETING_KEYWORDS.any (fun k => k.data == w)))) = true
    ∧ contains_substring "which".data "hi".data = true := by
  refine ⟨?_, by decide, by decide, by decide⟩
  intro reply
  have h : greeting_shortcut "which cameras are offline" = true := by decide
  simp [classify_query, h]

/-- C9 (counterexample): a `QueryResult` constructed with one row and an
explicitly supplied `row_count` of `0` does not keep the supplied value —
the validator treats the falsy `0` as absent and stores `len(rows) = 1`. -/
theorem query_result_supplied_zero_row_count_not_kept :
    (mk_query_result 1 "SELECT user_id FROM sessions" [()] ([] : List String)
        0 none false).row_count = 1
    ∧ ((1 : Int) ≠ (0 : Int)) := by decide

/-- C9 (amended): `row_count` equals `len(rows)` unless a non-zero value
was supplied at construction, in which case the supplied value is kept; a
supplied `0` is replaced by `len(rows)`. -/
theorem query_result_row_count_default_unless_nonzero
    {α : Type} (query_id : Nat) (sql : String) (rows : List α)
    (columns : List String) (row_count : Int) (execution_ms : Option Int)
    (cached : Bool) :
    (row_count ≠ 0 →
      (mk_query_result query_id sql rows columns row_count execution_ms
        cached).row_count = row_count)
    ∧ (row_count = 0 →
      (mk_query_result query_id sql rows columns row_count execution_ms
        cached).row_count = (rows.length : Int)) := by
  constructor <;> intro h <;> simp [mk_query_result, query_result_row_count, h]

/-- Witness for C9 (amended) at a supplied non-zero count and a defaulted
count. -/
theorem query_result_row_count_default_unless_nonzero_witness :
    (mk_query_result 2 "SELECT 1" ["row"] [] 7 none false).row_count = 7
    ∧ (mk_query_result 3 "SELECT 1" ["row"] [] 0 none false).row_count = 1 :=
  ⟨(query_result_row_count_default_unless_nonzero 2 "SELECT 1" ["row"] [] 7
      none false).1 (by decide),
   ((query_result_row_count_default_unless_nonzero 3 "SELECT 1" ["row"] [] 0
      none false).2 rfl).trans (by decide)⟩

/-- Once the catalog is cached, every further `get_schema` call returns it
without touching the state. -/
theorem run_get_schema_loaded (loader : Except String SchemaCatalog) (n : Nat)
    (st : SchemaState) (c : SchemaCatalog) (h : st.loaded_schema = some c) :
    run_get_schema loader n st = (List.replicate n (Except.ok c), st) := by
  induction n with
  | zero => simp [run_get_schema]
  | succ k ih => simp [run_get_schema, get_schema_step, h, ih, List.replicate_succ]

/-- While the load keeps failing, every `get_schema` call re-runs the load
and re-raises `SchemaLoadError`. -/
theorem run_get_schema_failed (msg : String) (n : Nat) (st : SchemaState)
    (h : st.loaded_schema = none) :
    run_get_schema (Except.error msg) n st
      = (List.replicate n (Except.error (PyExc.schemaLoadError msg)),
         ⟨st.loaded_schema, st.schema_loaded, st.load_count + n⟩) := by
  induction n generalizing st with
  | zero =>
    rfl
  | succ k ih =>
    have step : get_schema_step (Except.error msg) st
        = (Except.error (PyExc.schemaLoadError msg),
           ⟨st.loaded_schema, st.schema_loaded, st.load_count + 1⟩) := by
      simp [get_schema_step, h]
    have ih' := ih ⟨st.loaded_schema, st.schema_loaded, st.load_count + 1⟩ h
    simp only [run_get_schema, step, ih', List.replicate_succ]
    simp only [Prod.mk.injEq, SchemaState.mk.injEq, true_and, and_true]
    omega

/-- C3 (amended): when the first load succeeds, N concurrent `get_schema`
callers serialized by the load lock trigger exactly one underlying load
and all receive the same catalog; when the load fails, the failure is not
cached — each of the N callers re-triggers the load (N loads in total),
each receiving the same `SchemaLoadError`. -/
theorem get_schema_single_flight_on_success_and_reload_on_failure :
    (∀ (c : SchemaCatalog) (n : Nat), 1 ≤ n →
        run_get_schema (Except.ok c) n initial_schema_state
          = (List.replicate n (Except.ok c), ⟨some c, true, 1⟩))
    ∧ (∀ (msg : String) (n : Nat),
        run_get_schema (Except.error msg) n initial_schema_state
          = (List.replicate n (Except.error (PyExc.schemaLoadError msg)),
             ⟨none, false, n⟩)) := by
  constructor
  · intro c n hn
    obtain ⟨k, rfl⟩ : ∃ k, n = k + 1 := ⟨n - 1, by omega⟩
    have step : get_schema_step (Except.ok c) initial_schema_state
        = (Except.ok c, ⟨some c, true, 1⟩) := by
      simp [get_schema_step, initial_schema_state]
    have after : run_get_schema (Except.ok c) k (⟨some c, true, 1⟩ : SchemaState)
        = (List.replicate k (Except.ok c), ⟨some c, true, 1⟩) :=
      run_get_schema_loaded (Except.ok c) k ⟨some c, true, 1⟩ c rfl
    simp [run_get_schema, step, after, List.replicate_succ]
  · intro msg n
    have := run_get_schema_failed msg n initial_schema_state rfl
    simpa [initial_schema_state] using this

/-- C3 (counterexample): with a failing load (for example a missing schema
file) two callers racing on the first load execute the underlying load
twice — not exactly once as claimed. -/
theorem get_schema_failed_load_runs_twice :
    (run_get_schema (Except.error "Schema file not found: data/mapping.json")
        2 initial_schema_state).2.load_count = 2
    ∧ (2 : Nat) ≠ 1 := by decide

/-- Witness for C3 (amended): three concurrent callers with a succeeding
loader get the same catalog after exactly one load. -/
theorem get_schema_single_flight_witness :
    run_get_schema (Except.ok sample_catalog) 3 initial_schema_state
      = (List.replicate 3 (Except.ok sample_catalog),
         ⟨some sample_catalog, true, 1⟩) :=
  get_schema_single_flight_on_success_and_reload_on_failure.1 sample_catalog 3
    (by decide)

/-- Reachable manager states only flag the schema event after the catalog
has been published. -/
theorem schema_reachable_loaded_invariant (st : SchemaState)
    (h : SchemaReachable st) :
    st.schema_loaded = true → ∃ c, st.loaded_schema = some c := by
  induction h with
  | init =>
    intro hl
    exact absurd hl (by simp [initial_schema_state])
  | step loader st' _ ih =>
    intro hl
    cases hs : st'.loaded_schema with
    | some c =>
      have : (get_schema_step loader st').2 = st' := by simp [get_schema_step, hs]
      rw [this] at hl ⊢
      exact ⟨c, hs⟩
    | none =>
      cases loader with
      | error msg =>
        have h2 : (get_schema_step (Except.error msg) st').2
            = { st' with load_count := st'.load_count + 1 } := by
          simp [get_schema_step, hs]
        rw [h2] at hl ⊢
        obtain ⟨c, hc⟩ := ih hl
        exact absurd (hs ▸ hc) (by simp)
      | ok c =>
        have h2 : (get_schema_step (Except.ok c) st').2
            = ⟨some c, true, st'.load_count + 1⟩ := by
          simp [get_schema_step, hs]
        rw [h2]
        exact ⟨c, rfl⟩

/-- C4 (amended): in every reachable manager state, `wait_for_schema`
returns the loaded catalog once a load has completed (the event is set),
and blocks indefinitely — rather than raising `SchemaLoadError` — while no
load has completed; in particular it blocks forever when no load was ever
initiated. -/
theorem wait_for_schema_returns_catalog_after_load (st : SchemaState)
    (h : SchemaReachable st) :
    (st.schema_loaded = true →
        ∃ c, st.loaded_schema = some c
          ∧ wait_for_schema st = WaitOutcome.returned c)
    ∧ (st.schema_loaded = false → wait_for_schema st = WaitOutcome.blocked) := by
  constructor
  · intro hl
    obtain ⟨c, hc⟩ := schema_reachable_loaded_invariant st h hl
    exact ⟨c, hc, by simp [wait_for_schema, hl, hc]⟩
  · intro hl
    simp [wait_for_schema, hl]

/-- C4 (counterexample): in the fresh state, where no load was ever
initiated, `wait_for_schema` blocks forever on the unset event — it does
not raise `SchemaLoadError`. -/
theorem wait_for_schema_blocks_when_no_load_initiated :
    wait_for_schema initial_schema_state = WaitOutcome.blocked
    ∧ wait_for_schema initial_schema_state
        ≠ WaitOutcome.raised
            (PyExc.schemaLoadError "Schema not loaded after waiting.") := by
  decide

/-- Witness for C4 (amended): after one successful `get_schema` call,
`wait_for_schema` returns the loaded catalog. -/
theorem wait_for_schema_returns_catalog_after_load_witness :
    ∃ c, ((get_schema_step (Except.ok sample_catalog)
            initial_schema_state).2).loaded_schema = some c
      ∧ wait_for_schema ((get_schema_step (Except.ok sample_catalog)
            initial_schema_state).2) = WaitOutcome.returned c :=
  (wait_for_schema_returns_catalog_after_load _
    (SchemaReachable.step _ _ SchemaReachable.init)).1 rfl

/-- A presto environment in which establishing the connection fails. -/
def conn_fail_env : PrestoEnv := ⟨some "Connection refused", none, none, [], 0⟩

/-- C2 (code evaluated at the failing input): with execution enabled and
`prestodb.dbapi.connect` raising, `DatabaseManager.execute` raises
`QueryExecutionError`, not `DatabaseConnectionError` — the blanket
`except Exception` of `_execute_sync` re-wraps the
`DatabaseConnectionError` raised by `_ensure_connection`, which
contradicts the documented failure taxonomy and makes the dedicated
`except DatabaseConnectionError` branch of the orchestrator unreachable. -/
theorem execute_wraps_connection_failure_as_query_execution_error :
    database_execute true conn_fail_env false 7 "SELECT count(*) FROM sessions"
      = Except.error (PyExc.queryExecutionError "Connection refused")
    ∧ PyExc.queryExecutionError "Connection refused"
        ≠ PyExc.databaseConnectionError "Connection refused" :=
  ⟨rfl, by decide⟩

/-- A successfully constructed execution result always carries
`row_count = len(rows)` (justifies the hypothesis of the response
formatting theorem). -/
theorem database_execute_row_count_eq (execute_queries : Bool)
    (env : PrestoEnv) (connected : Bool) (query_id : Nat) (sql : String)
    (r : QueryResult PyRow)
    (h : database_execute execute_queries env connected query_id sql
          = Except.ok r) :
    r.row_count = (r.rows.length : Int) := by
  unfold database_execute at h
  by_cases hq : execute_queries
  · simp only [hq, Bool.not_true, Bool.false_eq_true, if_false] at h
    unfold execute_sync execute_sync_body at h
    cases hconn : ensure_connection env connected with
    | error e => simp [hconn] at h
    | ok u =>
      rw [hconn] at h
      cases hex : env.exec_raises with
      | some e => simp [hex] at h
      | none =>
        rw [hex] at h
        cases hd : env.description with
        | none =>
          rw [hd] at h
          simp only [Except.ok.injEq] at h
          subst h
          simp [mk_query_result, query_result_row_count]
        | some columns =>
          rw [hd] at h
          simp only [Except.ok.injEq] at h
          subst h
          by_cases hz : ((env.fetched_rows.map
              (fun row => columns.zip row)).length : Int) = 0 <;>
            simp [mk_query_result, query_result_row_count, hz]
  · simp only [hq, Bool.not_false, if_true] at h
    simp only [Except.ok.injEq] at h
    subst h
    simp [mk_query_result, query_result_row_count]

/-- C8: on successful execution (where `row_count = len(rows)`), the
response renders the SQL followed by at most `max_results_display` rows
numbered consecutively from 1, and ends with a note stating the number of
remaining rows exactly when `row_count` exceeds that maximum; an empty
result renders the distinct no-results message containing the SQL and no
row list.  The `row_count = len(rows)` hypothesis holds for every result
of `database_execute` by `database_execute_row_count_eq`. -/
theorem format_success_response_preview_and_note
    {α : Type} (repr_row : α → String) (m : Nat) (sql : String)
    (r : QueryResult α) (hrc : r.row_count = (r.rows.length : Int)) :
    (r.rows = [] →
      format_success_response m repr_row sql r
        = "Generated SQL Query:\n\n" ++ sql ++ "\n\nNo results were returned.")
    ∧ (r.rows ≠ [] →
      format_success_response m repr_row sql r
        = String.intercalate "\n"
            (["Generated SQL Query:", "", sql, "",
              "Results (" ++ toString r.row_count ++ " row"
                ++ (if r.row_count ≠ 1 then "s" else "") ++ "):", ""]
             ++ (r.rows.take m).enum.map
                  (fun p => toString (p.1 + 1) ++ ". " ++ repr_row p.2)
             ++ (if m < r.rows.length then
                  ["", "... and " ++ toString ((r.rows.length : Int) - (m : Int))
                    ++ " more row(s)."]
                 else []))
      ∧ (r.rows.take m).length = min m r.rows.length
      ∧ min m r.rows.length ≤ m) := by
  constructor
  · intro hnil
    simp [format_success_response, hnil]
  · intro hne
    have hie : r.rows.isEmpty = false := by
      cases hr : r.rows with
      | nil => exact absurd hr hne
      | cons a as => simp [List.isEmpty]
    have hlen : (r.rows.take m).length = min m r.rows.length :=
      List.length_take m r.rows
    refine ⟨?_, hlen, Nat.min_le_left _ _⟩
    simp only [format_success_response, hie, Bool.false_eq_true, if_false]
    by_cases hm : m < r.rows.length
    · have hpos : (0 : Int) < r.row_count - ((r.rows.take m).length : Int) := by
        rw [hrc, hlen]
        have : min m r.rows.length = m := Nat.min_eq_left (Nat.le_of_lt hm)
        rw [this]
        omega
      have hval : r.row_count - ((r.rows.take m).length : Int)
          = (r.rows.length : Int) - (m : Int) := by
        rw [hrc, hlen, Nat.min_eq_left (Nat.le_of_lt hm)]
      rw [if_pos hpos, if_pos hm, hval]
    · have hnonpos : ¬ (0 : Int) < r.row_count - ((r.rows.take m).length : Int) := by
        rw [hrc, hlen]
        have : min m r.rows.length = r.rows.length :=
          Nat.min_eq_right (Nat.le_of_not_lt hm)
        rw [this]
        omega
      rw [if_neg hnonpos, if_neg hm]

/-- A concrete three-row result whose `row_count` matches its rows. -/
def sample_result : QueryResult String :=
  ⟨11, "SELECT user_id FROM sessions", ["ra", "rb", "rc"], ["user_id"], 3, none, false⟩

/-- Witness for C8: three rows with a display limit of two yield two
numbered rows and a one-remaining note. -/
theorem format_success_response_preview_and_note_witness :
    format_success_response 2 (fun s => s) "SELECT user_id FROM sessions"
        sample_result
      = "Generated SQL Query:\n\nSELECT user_id FROM sessions\n\nResults (3 rows):\n\n1. ra\n2. rb\n\n... and 1 more row(s)." :=
  (((format_success_response_preview_and_note (fun s => s) 2
      "SELECT user_id FROM sessions" sample_result rfl).2 (by decide)).1).trans
    (by decide)

/-- C1 (counterexample input): the classify stage raises an exception that
is not a `ClassificationError`. -/
def unexpected_classify_behavior : StageBehavior Unit :=
  ⟨Except.error (PyExc.otherError "boom"), Except.ok sample_catalog,
   Except.ok "SELECT 1", Except.ok (mk_query_result 1 "SELECT 1" [] [] 0 none false),
   Except.ok "hello"⟩

/-- C1 (counterexample): an unexpected exception raised during the
classification stage is not caught — `process` raises it to its caller,
so `process` is not total for well-formed requests and the unexpected
exception is not converted into the classification fallback text. -/
theorem process_raises_on_unexpected_classification_exception :
    process 5 (fun _ : Unit => "") unexpected_classify_behavior
      = Except.error (PyExc.otherError "boom") := rfl

/-- C1 (amended): unexpected exceptions are caught only at the
schema-load and execution stages, where they are converted into
stage-specific generic fallback texts that differ from the texts used for
the typed errors; `process` returns a string (never raises) provided the
classification, generation and conversational-answer stages raise only
their typed errors and the schema stage does not raise `AttributeError`
(which `_handle_data_question` re-raises as `QueryGenerationError`). -/
theorem process_total_when_stage_errors_typed :
    (∀ (α : Type) (m : Nat) (rr : α → String) (b : StageBehavior α),
        raises_only_classification b → raises_only_generation b →
        raises_only_answer b → schema_no_attribute_error b →
        ∃ s, process m rr b = Except.ok s)
    ∧ (∀ (α : Type) (m : Nat) (rr : α → String) (b : StageBehavior α)
          (msg : String),
        b.classify = Except.ok "DATA_QUESTION" →
        b.get_schema = Except.error (PyExc.otherError msg) →
        process m rr b = Except.ok schema_unexpected_fallback)
    ∧ schema_unexpected_fallback ≠ schema_load_fallback
    ∧ (∀ (α : Type) (m : Nat) (rr : α → String) (b : StageBehavior α)
          (sql msg : String),
        b.classify = Except.ok "DATA_QUESTION" →
        (∃ cat, b.get_schema = Except.ok cat) →
        b.generate_sql = Except.ok sql →
        b.execute = Except.error (PyExc.otherError msg) →
        process m rr b = Except.ok (execution_unexpected_fallback sql))
    ∧ execution_unexpected_fallback "SELECT 1" ≠ execution_fallback "SELECT 1" := by
  refine ⟨?_, ?_, by decide, ?_, by decide⟩
  · intro α m rr b h1 h2 h3 h4
    unfold process
    cases hc : b.classify with
    | error e =>
      simp [h1 e hc]
    | ok category =>
      by_cases hos : category = "OUT_OF_SCOPE"
      · simp [hos]
      · by_cases hg : category = "GREETING" ∨ category = "GENERAL_QUESTION"
        · simp only [hos, if_false, hg, if_true]
          unfold handle_general_question
          cases ha : b.answer_general with
          | ok text => exact ⟨text, rfl⟩
          | error e => simp [h3 e ha]
        · have hdata : ∃ s, handle_data_question m rr b = Except.ok s := by
            unfold handle_data_question
            cases hs : b.get_schema with
            | error e =>
              simp only [h4 e hs, Bool.false_eq_true, if_false]
              by_cases hsl : is_schema_load_error e
              · simp [hsl]
              · simp [hsl]
            | ok cat =>
              cases hgen : b.generate_sql with
              | error e => simp [h2 e hgen]
              | ok sql =>
                cases hex : b.execute with
                | ok result => exact ⟨_, rfl⟩
                | error e =>
                  by_cases hqe : is_query_execution_error e
                  · simp [hqe]
                  · by_cases hdc : is_database_connection_error e
                    · simp [hqe, hdc]
                    · simp [hqe, hdc]
          simp only [hos, if_false, hg, if_false]
          by_cases hd : category = "DATA_QUESTION"
          · simpa [hd] using hdata
          · simpa [hd] using hdata
  · intro α m rr b msg hc hs
    simp [process, hc, handle_data_question, hs, is_attribute_error,
      is_schema_load_error]
  · rintro α m rr b sql msg hc ⟨cat, hs⟩ hgen hex
    simp [process, hc, handle_data_question, hs, hgen, hex,
      is_query_execution_error, is_database_connection_error]

/-- C1 (witness input): every stage raises only its typed error. -/
def typed_stage_behavior : StageBehavior Unit :=
  ⟨Except.error (PyExc.classificationError "transport down"),
   Except.ok sample_catalog, Except.ok "SELECT 1",
   Except.ok (mk_query_result 1 "SELECT 1" [] [] 0 none false),
   Except.ok "hello"⟩

/-- C1 (witness input): a data question whose schema load fails with an
unclassified exception. -/
def data_schema_unexpected_behavior : StageBehavior Unit :=
  ⟨Except.ok "DATA_QUESTION", Except.error (PyExc.otherError "disk gone"),
   Except.ok "SELECT 1", Except.ok (mk_query_result 1 "SELECT 1" [] [] 0 none false),
   Except.ok "hello"⟩

/-- Witness for C1 (amended) at concrete stage behaviours. -/
theorem process_total_when_stage_errors_typed_witness :
    (∃ s, process 5 (fun _ : Unit => "") typed_stage_behavior = Except.ok s)
    ∧ process 5 (fun _ : Unit => "") data_schema_unexpected_behavior
        = Except.ok schema_unexpected_fallback :=
  ⟨process_total_when_stage_errors_typed.1 Unit 5 (fun _ => "")
      typed_stage_behavior
      (fun e he => by cases he; rfl)
      (fun e he => Except.noConfusion he)
      (fun e he => Except.noConfusion he)
      (fun e he => Except.noConfusion he),
   process_total_when_stage_errors_typed.2.1 Unit 5 (fun _ => "")
      data_schema_unexpected_behavior "disk gone" rfl rfl⟩

/-- A prefix match of the six-character `sql` fence is in particular a
match of the three-character fence. -/
theorem sql_prefix_imp_fence (cs : List Char)
    (h : [bq, bq, bq, 's', 'q', 'l'].isPrefixOf cs = true) :
    [bq, bq, bq].isPrefixOf cs = true := by
  rw [List.isPrefixOf_iff_prefix] at h ⊢
  exact List.IsPrefix.trans (by decide) h

/-- A character that opens no fence marker is kept by the substitution. -/
theorem rcf_cons_no_fence (c : Char) (rest : List Char)
    (h : [bq, bq, bq].isPrefixOf (c :: rest) = false) :
    remove_code_fences (c :: rest) = c :: remove_code_fences rest := by
  have hsql : [bq, bq, bq, 's', 'q', 'l'].isPrefixOf (c :: rest) = false := by
    by_cases hs : [bq, bq, bq, 's', 'q', 'l'].isPrefixOf (c :: rest) = true
    · rw [sql_prefix_imp_fence _ hs] at h
      exact absurd h (by simp)
    · exact Bool.eq_false_iff.mpr hs
  rw [remove_code_fences]
  rw [if_neg (by simp [hsql]), if_neg (by simp [h])]

/-- A character other than the backquote opens no fence marker. -/
theorem fence_isPrefixOf_cons_ne (c : Char) (rest : List Char) (hc : c ≠ bq) :
    [bq, bq, bq].isPrefixOf (c :: rest) = false := by
  simp [List.isPrefixOf]
  intro h
  exact absurd h.symm hc

/-- The substitution drops a greedy `sql` fence match whole. -/
theorem rcf_fence_sql (t : List Char) :
    remove_code_fences (bq :: bq :: bq :: 's' :: 'q' :: 'l' :: t)
      = remove_code_fences t := by
  rw [remove_code_fences]
  rw [if_pos (by simp [List.isPrefixOf])]
  simp

/-- A fence marker not followed by the letter `s` matches plainly; the
scan resumes at the following character. -/
theorem rcf_fence_not_s (c : Char) (t : List Char) (hc : c ≠ 's') :
    remove_code_fences (bq :: bq :: bq :: c :: t)
      = remove_code_fences (c :: t) := by
  rw [remove_code_fences]
  rw [if_neg (by simp [List.isPrefixOf]; intro h; exact absurd h.symm hc),
    if_pos (by simp [List.isPrefixOf])]
  simp

/-- A closing fence marker at the end of the text is dropped. -/
theorem rcf_fence_nil : remove_code_fences [bq, bq, bq] = [] := by
  rw [remove_code_fences]
  rw [if_neg (by simp [List.isPrefixOf]), if_pos (by simp [List.isPrefixOf])]
  simp [remove_code_fences]

/-- Appending text after a non-backquote character cannot create a fence
match starting inside a fence-free segment. -/
theorem fence_isPrefixOf_append_block (a : Char) (s' : List Char) (c : Char)
    (t : List Char) (hp : [bq, bq, bq].isPrefixOf (a :: s') = false)
    (hc : c ≠ bq) :
    [bq, bq, bq].isPrefixOf (a :: (s' ++ c :: t)) = false := by
  rcases s' with _ | ⟨b, _ | ⟨d, s''⟩⟩
  · exact (by simp [List.isPrefixOf]; intro _ h2; exact absurd h2.symm hc)
  · exact (by simp [List.isPrefixOf]; intro _ _ h3; exact absurd h3.symm hc)
  · simpa [List.isPrefixOf] using hp

/-- The substitution scans through a fence-free segment unchanged when the
next character is not a backquote. -/
theorem rcf_append_no_fence (s : List Char) (c : Char) (t : List Char)
    (hs : has_fence s = false) (hc : c ≠ bq) :
    remove_code_fences (s ++ c :: t) = s ++ c :: remove_code_fences t := by
  induction s with
  | nil =>
    simp only [List.nil_append]
    exact rcf_cons_no_fence c t (fence_isPrefixOf_cons_ne c t hc)
  | cons a s' ih =>
    obtain ⟨h1, h2⟩ : [bq, bq, bq].isPrefixOf (a :: s') = false
        ∧ has_fence s' = false := by
      simpa [has_fence, Bool.or_eq_false_iff] using hs
    rw [List.cons_append,
      rcf_cons_no_fence a (s' ++ c :: t) (fence_isPrefixOf_append_block a s' c t h1 hc),
      ih h2]
    simp

/-- A fence-free text passes through the substitution unchanged. -/
theorem rcf_no_fence (s : List Char) (hs : has_fence s = false) :
    remove_code_fences s = s := by
  induction s with
  | nil => rw [remove_code_fences]
  | cons a s' ih =>
    obtain ⟨h1, h2⟩ : [bq, bq, bq].isPrefixOf (a :: s') = false
        ∧ has_fence s' = false := by
      simpa [has_fence, Bool.or_eq_false_iff] using hs
    rw [rcf_cons_no_fence a s' h1, ih h2]

/-- A text without backquotes has no fence marker. -/
theorem has_fence_eq_false_of_no_bq (t : List Char) (h : ∀ c ∈ t, c ≠ bq) :
    has_fence t = false := by
  induction t with
  | nil => rfl
  | cons a t' ih =>
    simp only [has_fence, Bool.or_eq_false_iff]
    exact ⟨fence_isPrefixOf_cons_ne a t' (h a (by simp)),
      ih (fun c hc => h c (List.mem_cons_of_mem _ hc))⟩

/-- The two strip components of a text already equal to its own strip. -/
theorem py_strip_eq_self_parts (s : List Char) (h : py_strip s = s) :
    s.dropWhile is_py_space = s
    ∧ s.reverse.dropWhile is_py_space = s.reverse := by
  have hlen1 : (s.dropWhile is_py_space).length ≤ s.length :=
    (List.dropWhile_suffix _).sublist.length_le
  have hlen2 : ((s.dropWhile is_py_space).reverse.dropWhile is_py_space).length
      ≤ (s.dropWhile is_py_space).reverse.length :=
    (List.dropWhile_suffix _).sublist.length_le
  have hL : (s.dropWhile is_py_space).length = s.length := by
    have hcongr := congrArg List.length h
    simp only [py_strip, List.length_reverse] at hcongr
    simp only [List.length_reverse] at hlen2
    omega
  have h1 : s.dropWhile is_py_space = s :=
    (List.dropWhile_suffix _).eq_of_length hL
  refine ⟨h1, ?_⟩
  rw [py_strip, h1] at h
  have := congrArg List.reverse h
  simpa [List.reverse_reverse] using this

/-- A stripped non-empty text starts with a non-space character. -/
theorem head_not_space (c : Char) (s' : List Char)
    (h : (c :: s').dropWhile is_py_space = c :: s') :
    is_py_space c = false := by
  by_cases hc : is_py_space c
  · rw [List.dropWhile_cons_of_pos hc] at h
    have hle : (s'.dropWhile is_py_space).length ≤ s'.length :=
      (List.dropWhile_suffix _).sublist.length_le
    have := congrArg List.length h
    simp at this
    omega
  · simpa using hc

/-- Stripping a stripped text surrounded by whitespace recovers it. -/
theorem strip_wrap (u v s : List Char)
    (hu : ∀ c ∈ u, is_py_space c = true) (hv : ∀ c ∈ v, is_py_space c = true)
    (hs : py_strip s = s) :
    py_strip (u ++ (s ++ v)) = s := by
  obtain ⟨hL, hR⟩ := py_strip_eq_self_parts s hs
  unfold py_strip
  rw [List.dropWhile_append_of_pos hu]
  cases s with
  | nil =>
    have hv' : v.dropWhile is_py_space = [] := by
      have := @List.dropWhile_append_of_pos Char is_py_space v [] hv
      simpa using this
    simp [hv']
  | cons a s' =>
    have ha : is_py_space a = false := head_not_space a s' hL
    rw [List.cons_append, List.dropWhile_cons_of_neg (by simp [ha])]
    rw [show (a :: (s' ++ v)).reverse = v.reverse ++ (a :: s').reverse by simp]
    rw [List.dropWhile_append_of_pos (fun c hc => hv c (List.mem_reverse.mp hc))]
    rw [hR]
    simp

/-- Stripping a stripped text followed by a terminator and whitespace
keeps the terminator and drops the whitespace. -/
theorem strip_wrap_semicolon (u v s : List Char)
    (hu : ∀ c ∈ u, is_py_space c = true) (hv : ∀ c ∈ v, is_py_space c = true)
    (hs : py_strip s = s) :
    py_strip (u ++ (s ++ ';' :: v)) = s ++ [';'] := by
  obtain ⟨hL, hR⟩ := py_strip_eq_self_parts s hs
  have hsemi : is_py_space ';' = false := by decide
  unfold py_strip
  rw [List.dropWhile_append_of_pos hu]
  cases s with
  | nil =>
    simp only [List.nil_append]
    rw [List.dropWhile_cons_of_neg (by simp [hsemi])]
    rw [show (';' :: v).reverse = v.reverse ++ [';'] by simp]
    rw [List.dropWhile_append_of_pos (fun c hc => hv c (List.mem_reverse.mp hc))]
    rw [show ([';'] : List Char).dropWhile is_py_space = [';'] from rfl]
    simp
  | cons a s' =>
    have ha : is_py_space a = false := head_not_space a s' hL
    rw [List.cons_append, List.dropWhile_cons_of_neg (by simp [ha])]
    rw [show (a :: (s' ++ ';' :: v)).reverse
        = v.reverse ++ ';' :: (a :: s').reverse by simp]
    rw [List.dropWhile_append_of_pos (fun c hc => hv c (List.mem_reverse.mp hc))]
    rw [List.dropWhile_cons_of_neg (by simp [hsemi])]
    simp

/-- C6 (amended): for a trimmed SQL text without fence markers and without
a trailing terminator, sanitization recovers the text byte-identically
from the bare text, from the text wrapped in plain or `sql` code fences
(fence separated from the SQL by a newline), and from the text with a
terminator appended directly to it (optionally followed by trailing
whitespace, also inside fences); whitespace is not allowed between the SQL
and the terminator, where it would survive sanitization. -/
theorem clean_sql_query_round_trip (s ws : List Char)
    (hf : has_fence s = false) (hst : py_strip s = s)
    (ht : s.getLast? ≠ some ';') (hws : ∀ c ∈ ws, is_py_space c = true) :
    clean_sql_query s = s
    ∧ clean_sql_query ([bq, bq, bq, 's', 'q', 'l'] ++ '\n' :: (s ++ '\n' :: [bq, bq, bq])) = s
    ∧ clean_sql_query ([bq, bq, bq] ++ '\n' :: (s ++ '\n' :: [bq, bq, bq])) = s
    ∧ clean_sql_query (s ++ ';' :: ws) = s
    ∧ clean_sql_query ([bq, bq, bq, 's', 'q', 'l'] ++ '\n' :: (s ++ ';' :: '\n' :: [bq, bq, bq])) = s := by
  have hnl : ('\n' : Char) ≠ bq := by decide
  have hsemi : (';' : Char) ≠ bq := by decide
  have hnl_space : ∀ c ∈ ['\n'], is_py_space c = true := by decide
  have hfence_inner : remove_code_fences (s ++ '\n' :: [bq, bq, bq])
      = s ++ ['\n'] := by
    rw [rcf_append_no_fence s '\n' [bq, bq, bq] hf hnl, rcf_fence_nil]
  have hfence_semi_inner : remove_code_fences (s ++ ';' :: '\n' :: [bq, bq, bq])
      = s ++ [';', '\n'] := by
    rw [rcf_append_no_fence s ';' ('\n' :: [bq, bq, bq]) hf hsemi,
      rcf_cons_no_fence '\n' [bq, bq, bq] (fence_isPrefixOf_cons_ne _ _ hnl),
      rcf_fence_nil]
  refine ⟨?_, ?_, ?_, ?_, ?_⟩
  · simp only [clean_sql_query, rcf_no_fence s hf, hst]
    rw [if_neg ht]
  · simp only [clean_sql_query]
    rw [show [bq, bq, bq, 's', 'q', 'l'] ++ '\n' :: (s ++ '\n' :: [bq, bq, bq])
        = bq :: bq :: bq :: 's' :: 'q' :: 'l' :: ('\n' :: (s ++ '\n' :: [bq, bq, bq]))
      from rfl]
    rw [rcf_fence_sql, rcf_cons_no_fence '\n' _ (fence_isPrefixOf_cons_ne _ _ hnl),
      hfence_inner]
    rw [show ('\n' :: (s ++ ['\n']) : List Char) = ['\n'] ++ (s ++ ['\n']) from rfl]
    rw [strip_wrap ['\n'] ['\n'] s hnl_space hnl_space hst]
    rw [if_neg ht]
  · simp only [clean_sql_query]
    rw [show [bq, bq, bq] ++ '\n' :: (s ++ '\n' :: [bq, bq, bq])
        = bq :: bq :: bq :: '\n' :: (s ++ '\n' :: [bq, bq, bq]) from rfl]
    rw [rcf_fence_not_s '\n' _ (by decide),
      rcf_cons_no_fence '\n' _ (fence_isPrefixOf_cons_ne _ _ hnl), hfence_inner]
    rw [show ('\n' :: (s ++ ['\n']) : List Char) = ['\n'] ++ (s ++ ['\n']) from rfl]
    rw [strip_wrap ['\n'] ['\n'] s hnl_space hnl_space hst]
    rw [if_neg ht]
  · simp only [clean_sql_query]
    have hws_no_bq : has_fence ws = false :=
      has_fence_eq_false_of_no_bq ws
        (fun c hc hbq => by
          have := hws c hc
          rw [hbq] at this
          exact absurd this (by decide))
    rw [rcf_append_no_fence s ';' ws hf hsemi, rcf_no_fence ws hws_no_bq]
    rw [show (s ++ ';' :: ws : List Char) = [] ++ (s ++ ';' :: ws) from rfl]
    rw [strip_wrap_semicolon [] ws s (by simp) hws hst]
    rw [if_pos (List.getLast?_concat s), List.dropLast_concat]
  · simp only [clean_sql_query]
    rw [show [bq, bq, bq, 's', 'q', 'l'] ++ '\n' :: (s ++ ';' :: '\n' :: [bq, bq, bq])
        = bq :: bq :: bq :: 's' :: 'q' :: 'l' :: ('\n' :: (s ++ ';' :: '\n' :: [bq, bq, bq]))
      from rfl]
    rw [rcf_fence_sql, rcf_cons_no_fence '\n' _ (fence_isPrefixOf_cons_ne _ _ hnl),
      hfence_semi_inner]
    rw [show ('\n' :: (s ++ [';', '\n']) : List Char)
        = ['\n'] ++ (s ++ ';' :: ['\n']) from by simp]
    rw [strip_wrap_semicolon ['\n'] ['\n'] s hnl_space hnl_space hst]
    rw [if_pos (List.getLast?_concat s), List.dropLast_concat]

/-- C6 (counterexample): the SQL text `SELECT 1` satisfies the claim's
hypotheses (no fence marker, no trailing terminator), yet appending the
terminator with whitespace before it — allowed by the claim — sanitizes to
`SELECT 1 `, which is not byte-identical to `SELECT 1`: the space before
the terminator survives. -/
theorem clean_sql_query_keeps_space_before_terminator :
    has_fence "SELECT 1".data = false
    ∧ py_strip "SELECT 1".data = "SELECT 1".data
    ∧ "SELECT 1".data.getLast? ≠ some ';'
    ∧ clean_sql_query ("SELECT 1".data ++ [' ', ';']) = "SELECT 1 ".data
    ∧ "SELECT 1 ".data ≠ "SELECT 1".data := by
  refine ⟨by decide, by decide, by decide, ?_, by decide⟩
  have h : remove_code_fences ("SELECT 1".data ++ [' ', ';'])
      = "SELECT 1".data ++ [' ', ';'] :=
    rcf_no_fence _ (by decide)
  simp only [clean_sql_query, h]
  decide

/-- Witness for C6 (amended) at a concrete query: fences with terminator,
and bare terminator with trailing whitespace. -/
theorem clean_sql_query_round_trip_witness :
    clean_sql_query ("SELECT count(9) FROM sessions".data ++ ';' :: [' ']) =
      "SELECT count(9) FROM sessions".data
    ∧ clean_sql_query ([bq, bq, bq, 's', 'q', 'l']
        ++ '\n' :: ("SELECT count(9) FROM sessions".data
          ++ ';' :: '\n' :: [bq, bq, bq])) = "SELECT count(9) FROM sessions".data :=
  ⟨(clean_sql_query_round_trip "SELECT count(9) FROM sessions".data [' ']
      (by decide) (by decide) (by decide) (by decide)).2.2.2.1,
   (clean_sql_query_round_trip "SELECT count(9) FROM sessions".data [' ']
      (by decide) (by decide) (by decide) (by decide)).2.2.2.2⟩

end AiQueryGen

